import Mathlib

/-!
Shallow embedding of `src/app.js` (a single-host system-information HTTP
dashboard) and proofs about its formatters, collectors, geolocation client
and request router.

Modelling conventions:
* JS numbers are IEEE-754 binary64 values, i.e. rationals of the form
  `m * 2^e` with `|m| < 2^53`.  The arithmetic operators `/`, `-`, `*` are
  correctly rounded (round to nearest, ties to even) by the ECMA standard;
  `flRound` below implements that rounding on `ℚ` exactly (normal range —
  every quantity in this program is far from overflow and underflow), and the
  memory collector's usage pipeline applies it after each operator.
  `Number.prototype.toFixed` is rendered by `jsToFixed` on the double's exact
  rational value, per its ECMA definition.
* `Math.floor(Math.log(bytes) / Math.log(1024))`: `Math.log` is
  implementation-approximated, not specified bit-exactly.  The model uses the
  exact `Nat.log 1024 bytes`.  Bit-exact evaluation of the deployed
  implementations (V8's fdlibm port and glibc) shows the double index agrees
  with `Nat.log` for every positive `bytes < 1024^5 - 3`; the only inputs
  below `1024^5` where the double quotient already reaches 5.0 are its last
  three integers.  All theorems about `formatBytes` therefore stay on the
  agreement range (or at `1024^5`, where both give index 5).  The division
  `bytes / Math.pow(1024, i)` is by a power of two and hence exact for
  `bytes < 2^53`, which covers every stated input.
* A JS value that may be `undefined` is an `Option`; interpolating `undefined`
  into a template literal prints the string "undefined", and indexing an array
  out of range yields `undefined`.
* The host platform (the `os`/`process` modules) is a `Host` record supplying
  the values the collectors read; the collectors themselves are translated
  from the source.
* The `axios.get('https://ipinfo.io/json')` call is modelled by a `GeoOutcome`:
  the promise rejects (network error, non-2xx status, timeout), or it resolves
  and `response.data` is not an object (destructuring throws, caught by the
  `catch`), or it resolves with an object body whose four fields each may be
  present or absent.
* The HTML presenter's textual output depends on JS float-to-string printing,
  which no claim concerns; the `/` branch therefore carries the structured
  data handed to `buildHtmlPage` rather than the rendered page text.
-/

/-- Pads a decimal digit string on the left with '0' to the requested width,
used to render the fractional part produced by `toFixed`. -/
def padLeftZeros (s : String) (n : ℕ) : String :=
  String.mk (List.replicate (n - s.length) '0') ++ s

/-- `Number.prototype.toFixed(d)` on an exactly-represented rational:
round `|q| * 10^d` to the nearest integer (ties away from zero), prepend the
sign of `q`, and print with `d` digits after the decimal point (no point when
`d = 0`). -/
def jsToFixed (d : ℕ) (q : ℚ) : String :=
  let sign := if q < 0 then "-" else ""
  let n : ℕ := (⌊|q| * 10 ^ d + 1/2⌋).toNat
  if d = 0 then sign ++ toString n
  else sign ++ toString (n / 10 ^ d) ++ "." ++ padLeftZeros (toString (n % 10 ^ d)) d

/-- Rounds a rational to the nearest integer, ties to even — the rounding
step of IEEE-754 round-to-nearest. -/
def rne (x : ℚ) : ℤ :=
  if x - ⌊x⌋ < 1/2 then ⌊x⌋
  else if 1/2 < x - ⌊x⌋ then ⌊x⌋ + 1
  else if ⌊x⌋ % 2 = 0 then ⌊x⌋ else ⌊x⌋ + 1

/-- Rounds a positive rational to 53 significant bits: scale into
`[2^52, 2^53)` using the floor of the base-2 logarithm, round to nearest
(ties to even), scale back. -/
def flRoundPos (q : ℚ) : ℚ :=
  (rne (q / 2 ^ (Int.log 2 q - 52)) : ℚ) * 2 ^ (Int.log 2 q - 52)

/-- IEEE-754 binary64 rounding of a rational in the normal range (this
program's quantities never approach overflow or underflow, so exponent
clamping is not modelled). -/
def flRound (q : ℚ) : ℚ :=
  if q = 0 then 0
  else if q < 0 then -flRoundPos (-q) else flRoundPos q

/-- The JS `/` operator on doubles: exact quotient, then binary64 rounding
(ECMA mandates IEEE-754 correctly rounded division). -/
def dblDiv (a b : ℚ) : ℚ := flRound (a / b)

/-- The JS `-` operator on doubles. -/
def dblSub (a b : ℚ) : ℚ := flRound (a - b)

/-- The JS `*` operator on doubles. -/
def dblMul (a b : ℚ) : ℚ := flRound (a * b)

/-- The unit table `['Bytes', 'KB', 'MB', 'GB', 'TB']` from `formatBytes`. -/
def sizes : List String := ["Bytes", "KB", "MB", "GB", "TB"]

/-- JS array indexing `xs[i]`: out-of-range access yields `undefined`, which
string concatenation renders as "undefined". -/
def jsIndex (xs : List String) (i : ℕ) : String :=
  xs.getD i "undefined"

/-- `formatBytes(bytes, decimal = 2)` from `src/app.js` lines 8-14: `0` maps to
"0 Bytes"; otherwise `i = Math.floor(Math.log(bytes)/Math.log(1024))` and the
result is `(bytes / 1024^i).toFixed(decimal) + ' ' + sizes[i]`.  The JS default
argument `decimal = 2` is passed explicitly by callers of this model. -/
def formatBytes (bytes decimal : ℕ) : String :=
  if bytes = 0 then "0 Bytes"
  else
    jsToFixed decimal ((bytes : ℚ) / 1024 ^ Nat.log 1024 bytes) ++ " " ++
      jsIndex sizes (Nat.log 1024 bytes)

/-- `formatTime(seconds)` from `src/app.js` lines 17-23: day/hour/minute/second
decomposition by floor division, always printing all four components. -/
def formatTime (seconds : ℕ) : String :=
  toString (seconds / (3600 * 24)) ++ "d " ++
  toString (seconds % (3600 * 24) / 3600) ++ "h " ++
  toString (seconds % 3600 / 60) ++ "m " ++
  toString (seconds % 60) ++ "s"

/-- JSON values, the common currency of the two presenters. -/
inductive Json where
  | str : String → Json
  | num : ℚ → Json
  | bool : Bool → Json
  | null : Json
  | arr : List Json → Json
  | obj : List (String × Json) → Json

/-- Looks a key up in a JSON object (the first binding wins, as in a JS
object literal with distinct keys). -/
def jsonLookup (j : Json) (k : String) : Option Json :=
  match j with
  | .obj fields => List.lookup k fields
  | _ => none

/-- The host platform capability: everything `src/app.js` reads from the `os`
and `process` modules.  `user` and `network` are carried as opaque JSON because
the source passes `os.userInfo()` and `os.networkInterfaces()` through
untouched. -/
structure Host where
  cpus : List String
  arch : String
  loadavg : List ℚ
  totalmem : ℕ
  freemem : ℕ
  platform : String
  ostype : String
  release : String
  hostname : String
  uptime : ℕ
  user : Json
  network : Json
  pid : ℕ
  title : String
  nodeVersion : String
  procUptime : ℕ
  rss : ℕ
  heapTotal : ℕ
  heapUsed : ℕ
  external : ℕ
  nodeEnv : Option String

/-- Result of `getCpuInfo` (`src/app.js` lines 26-31). -/
structure CpuInfo where
  model : String
  cores : ℕ
  architecture : String
  loadAvg : List ℚ

/-- Result of `getMemoryInfo` (`src/app.js` lines 34-38): three strings, no
numeric field survives into the snapshot. -/
structure MemoryInfo where
  total : String
  free : String
  usage : String
deriving DecidableEq

/-- Result of `getOsInfo` (`src/app.js` lines 41-47). -/
structure OsInfo where
  platform : String
  type : String
  release : String
  hostname : String
  uptime : String

/-- The `memoryUsage` sub-object of `getProcessInfo`. -/
structure MemoryUsageInfo where
  rss : String
  heapTotal : String
  heapUsed : String
  external : String

/-- The `env` sub-object of `getProcessInfo`. -/
structure EnvInfo where
  NODE_ENV : String

/-- Result of `getProcessInfo` (`src/app.js` lines 53-67). -/
structure ProcessInfo where
  pid : ℕ
  title : String
  nodeVersion : String
  uptime : String
  memoryUsage : MemoryUsageInfo
  env : EnvInfo

/-- `getCpuInfo` (`src/app.js` lines 26-31): `os.cpus()[0].model`,
`os.cpus().length`, `os.arch()`, `os.loadavg()`. -/
def getCpuInfo (h : Host) : CpuInfo :=
  { model := h.cpus.headI
    cores := h.cpus.length
    architecture := h.arch
    loadAvg := h.loadavg }

/-- `getMemoryInfo` (`src/app.js` lines 34-38): formatted total and free byte
counts, and `((1 - os.freemem() / os.totalmem()) * 100).toFixed(2) + '%'`.
The usage expression is evaluated in binary64: each of the division, the
subtraction and the multiplication rounds its exact result to the nearest
double, and `toFixed(2)` renders the final double's exact rational value.
The model agrees with the source for hosts with `0 < totalmem` and byte
counts below `2^53` (so the host-reported doubles are the exact integers;
with `totalmem = 0` the JS division produces `NaN`, and no physical host
reports zero total memory or exabyte counts). -/
def getMemoryInfo (h : Host) : MemoryInfo :=
  { total := formatBytes h.totalmem 2
    free := formatBytes h.freemem 2
    usage :=
      jsToFixed 2 (dblMul (dblSub 1 (dblDiv (h.freemem : ℚ) (h.totalmem : ℚ))) 100)
        ++ "%" }

/-- Modelled from the spec's words, for comparison with the source pipeline:
the usage percentage as the specification states it — the exact rational
`(1 - free/total) * 100` rendered with exactly two decimal places and a
percent sign, with no intermediate floating-point rounding. -/
def specUsageExact (total free : ℕ) : String :=
  jsToFixed 2 ((1 - (free : ℚ) / (total : ℚ)) * 100) ++ "%"

/-- `getOsInfo` (`src/app.js` lines 41-47). -/
def getOsInfo (h : Host) : OsInfo :=
  { platform := h.platform
    type := h.ostype
    release := h.release
    hostname := h.hostname
    uptime := formatTime h.uptime }

/-- `getUserInfo` (`src/app.js` line 50): pure passthrough of `os.userInfo()`. -/
def getUserInfo (h : Host) : Json := h.user

/-- The JS expression `x || 'Not set'` on a possibly-undefined environment
variable: every falsy value (absent, or the empty string) is replaced by the
default. -/
def jsOrDefault (x : Option String) : String :=
  match x with
  | none => "Not set"
  | some s => if s = "" then "Not set" else s

/-- `getProcessInfo` (`src/app.js` lines 53-67). -/
def getProcessInfo (h : Host) : ProcessInfo :=
  { pid := h.pid
    title := h.title
    nodeVersion := h.nodeVersion
    uptime := formatTime h.procUptime
    memoryUsage :=
      { rss := formatBytes h.rss 2
        heapTotal := formatBytes h.heapTotal 2
        heapUsed := formatBytes h.heapUsed 2
        external := formatBytes h.external 2 }
    env := { NODE_ENV := jsOrDefault h.nodeEnv } }

/-- `getNetworkInfo` (`src/app.js` line 70): pure passthrough of
`os.networkInterfaces()`. -/
def getNetworkInfo (h : Host) : Json := h.network

/-- The object body of a resolved geolocation response; each field may be
absent (destructuring an object never throws, missing keys give `undefined`). -/
structure GeoData where
  city : Option String
  region : Option String
  country : Option String
  loc : Option String

/-- Outcome of `await axios.get('https://ipinfo.io/json')`:
`reject` (network error, non-2xx status, or timeout — axios rejects the
promise and control jumps to the `catch`), `nullBody` (the promise resolves
but `response.data` is not an object, so destructuring it throws and the
`catch` runs), or `okBody d` (an object body). -/
inductive GeoOutcome where
  | reject
  | nullBody
  | okBody (d : GeoData)

/-- Result of `getGeolocation` (`src/app.js` lines 73-86).  `coordinates` is
`Option`al because the source assigns the destructured `loc` directly, which
is `undefined` when the response body lacks it. -/
structure GeoResult where
  location : String
  coordinates : Option String
deriving DecidableEq

/-- The fixed failure result built in the `catch` block of `getGeolocation`. -/
def geoSentinel : GeoResult :=
  { location := "Location not found", coordinates := some "Not available" }

/-- A possibly-undefined JS value interpolated into a template literal. -/
def jsTemplate (x : Option String) : String :=
  match x with
  | some s => s
  | none => "undefined"

/-- `getGeolocation` (`src/app.js` lines 73-86): on a rejected promise or a
throwing destructuring the `catch` returns the sentinel; otherwise the result
interpolates `city`, `region`, `country` into a template literal and passes
`loc` through. -/
def getGeolocation (o : GeoOutcome) : GeoResult :=
  match o with
  | .reject => geoSentinel
  | .nullBody => geoSentinel
  | .okBody d =>
    { location :=
        jsTemplate d.city ++ ", " ++ jsTemplate d.region ++ ", " ++ jsTemplate d.country
      coordinates := d.loc }

/-- JSON rendering of a `CpuInfo`, as `JSON.stringify` sees the object. -/
def cpuJson (c : CpuInfo) : Json :=
  .obj [("model", .str c.model), ("cores", .num (c.cores : ℚ)),
        ("architecture", .str c.architecture),
        ("loadAvg", .arr (c.loadAvg.map Json.num))]

/-- JSON rendering of a `MemoryInfo`. -/
def memJson (m : MemoryInfo) : Json :=
  .obj [("total", .str m.total), ("free", .str m.free), ("usage", .str m.usage)]

/-- JSON rendering of an `OsInfo`. -/
def osJson (o : OsInfo) : Json :=
  .obj [("platform", .str o.platform), ("type", .str o.type),
        ("release", .str o.release), ("hostname", .str o.hostname),
        ("uptime", .str o.uptime)]

/-- JSON rendering of a `ProcessInfo`. -/
def procJson (p : ProcessInfo) : Json :=
  .obj [("pid", .num (p.pid : ℚ)), ("title", .str p.title),
        ("nodeVersion", .str p.nodeVersion), ("uptime", .str p.uptime),
        ("memoryUsage",
          .obj [("rss", .str p.memoryUsage.rss),
                ("heapTotal", .str p.memoryUsage.heapTotal),
                ("heapUsed", .str p.memoryUsage.heapUsed),
                ("external", .str p.memoryUsage.external)]),
        ("env", .obj [("NODE_ENV", .str p.env.NODE_ENV)])]

/-- JSON rendering of a `GeoResult`.  `JSON.stringify` drops a key whose value
is `undefined`, so an absent `coordinates` disappears from the object. -/
def geoJson (g : GeoResult) : Json :=
  .obj (("location", Json.str g.location) ::
    (match g.coordinates with
     | some c => [("coordinates", Json.str c)]
     | none => []))

/-- The six collector fields of the `data` object both routes build
(`src/app.js` lines 154-161 and 170-178), in source order. -/
def snapshotFields (h : Host) : List (String × Json) :=
  [("cpu", cpuJson (getCpuInfo h)),
   ("memory", memJson (getMemoryInfo h)),
   ("os", osJson (getOsInfo h)),
   ("user", getUserInfo h),
   ("process", procJson (getProcessInfo h)),
   ("network", getNetworkInfo h)]

/-- The `/api` response document: the six collector fields plus the embedded
`geolocation` field (`src/app.js` lines 170-178). -/
def apiData (h : Host) (g : GeoResult) : Json :=
  .obj (snapshotFields h ++ [("geolocation", geoJson g)])

/-- A response body: the `/` branch carries the structured data handed to
`buildHtmlPage` (its textual HTML rendering is outside the model), the JSON
branches carry the document `JSON.stringify` serializes. -/
inductive Body where
  | html (data : Json) (geo : GeoResult)
  | json (j : Json)

/-- An HTTP response as the handler writes it: status code, `Content-Type`
header, body. -/
structure Response where
  status : ℕ
  contentType : String
  body : Body

/-- The request handler (`src/app.js` lines 148-188).  `method` is accepted
and ignored: the source branches on `url.parse(req.url).pathname` only. -/
def handle (h : Host) (g : GeoOutcome) (method pathname : String) : Response :=
  if pathname = "/" then
    { status := 200
      contentType := "text/html"
      body := .html (Json.obj (snapshotFields h)) (getGeolocation g) }
  else if pathname = "/api" then
    { status := 200
      contentType := "application/json"
      body := .json (apiData h (getGeolocation g)) }
  else
    { status := 404
      contentType := "application/json"
      body := .json (Json.obj [("error", Json.str "Route not found")]) }

/-- A concrete host state used to instantiate universally quantified theorems. -/
def sampleHost : Host :=
  { cpus := ["model0"]
    arch := "x64"
    loadavg := [0, 0, 0]
    totalmem := 1024
    freemem := 512
    platform := "linux"
    ostype := "Linux"
    release := "6.1.0"
    hostname := "host"
    uptime := 0
    user := Json.obj [("username", Json.str "user")]
    network := Json.obj []
    pid := 1
    title := "node"
    nodeVersion := "v20.0.0"
    procUptime := 0
    rss := 0
    heapTotal := 0
    heapUsed := 0
    external := 0
    nodeEnv := none }

/-- `sampleHost` with the given total and free memory. -/
def mkHost (tot fre : ℕ) : Host :=
  { sampleHost with totalmem := tot, freemem := fre }

/-- `sampleHost` with `NODE_ENV` set to the empty string. -/
def emptyEnvHost : Host :=
  { sampleHost with nodeEnv := some "" }

/-- Unfolding of `jsToFixed` for a non-negative argument and positive digit
count. -/
theorem jsToFixed_nonneg_eq (d : ℕ) (q : ℚ) (hq : 0 ≤ q) (hd : d ≠ 0) :
    jsToFixed d q =
      toString ((⌊q * 10 ^ d + 1/2⌋).toNat / 10 ^ d) ++ "." ++
        padLeftZeros (toString ((⌊q * 10 ^ d + 1/2⌋).toNat % 10 ^ d)) d := by
  rw [jsToFixed]
  simp only [abs_of_nonneg hq, if_neg (not_lt.mpr hq), if_neg hd]
  simp

/-- Evaluation of `jsToFixed` once the rounded scaled numerator is known. -/
theorem jsToFixed_eval (d : ℕ) (q : ℚ) (n : ℕ) (hq : 0 ≤ q)
    (hn : ⌊q * 10 ^ d + 1/2⌋ = (n : ℤ)) (hd : d ≠ 0) :
    jsToFixed d q =
      toString (n / 10 ^ d) ++ "." ++ padLeftZeros (toString (n % 10 ^ d)) d := by
  rw [jsToFixed_nonneg_eq d q hq hd, hn, Int.toNat_natCast]

/-- On a non-negative argument, `jsToFixed d` produces an integer part and a
`d`-digit fractional part that together are the correctly rounded value. -/
theorem jsToFixed_shape (d : ℕ) (q : ℚ) (hq : 0 ≤ q) (hd : d ≠ 0) :
    ∃ a b : ℕ, b < 10 ^ d ∧
      jsToFixed d q = toString a ++ "." ++ padLeftZeros (toString b) d ∧
      (a * 10 ^ d + b : ℤ) = ⌊q * 10 ^ d + 1/2⌋ := by
  have hfl : (0 : ℤ) ≤ ⌊q * 10 ^ d + 1/2⌋ := by
    rw [Int.floor_nonneg]
    positivity
  refine ⟨(⌊q * 10 ^ d + 1/2⌋).toNat / 10 ^ d, (⌊q * 10 ^ d + 1/2⌋).toNat % 10 ^ d,
    Nat.mod_lt _ (by positivity), jsToFixed_nonneg_eq d q hq hd, ?_⟩
  have hdm : (⌊q * 10 ^ d + 1/2⌋).toNat / 10 ^ d * 10 ^ d +
      (⌊q * 10 ^ d + 1/2⌋).toNat % 10 ^ d = (⌊q * 10 ^ d + 1/2⌋).toNat :=
    Nat.div_add_mod' _ _
  rw [← Int.toNat_of_nonneg hfl]
  exact_mod_cast hdm

/-- Unfolding `formatBytes` at a positive byte count lying between two
consecutive powers of 1024. -/
theorem formatBytes_eq (b d i : ℕ) (h1 : 1024 ^ i ≤ b) (h2 : b < 1024 ^ (i + 1)) :
    formatBytes b d = jsToFixed d ((b : ℚ) / 1024 ^ i) ++ " " ++ jsIndex sizes i := by
  have hb : b ≠ 0 := by
    have : 0 < 1024 ^ i := pow_pos (by norm_num) i
    omega
  rw [formatBytes, if_neg hb, Nat.log_eq_of_pow_le_of_lt_pow h1 h2]

/-- Every index below the length of the unit table yields a unit of the
table. -/
theorem jsIndex_mem : ∀ i : ℕ, i < 5 → jsIndex sizes i ∈ sizes := by decide

/-- C2 (amended): `formatBytes` is total; for a zero input it returns
"0 Bytes", and for every positive byte count below `1024^5 - 3` it returns
"<value> <unit>" where the unit is the entry of the size table for the largest
power of 1024 not exceeding the input (so the scaled value is at least 1 and
below 1024).  The quantifier stops three bytes short of the exact boundary
because the double-precision logarithm quotient already reaches 5.0 at the
last three integers below `1024^5` (bit-exact evaluation of V8's fdlibm and
glibc; on the stated range the double index and the exact index agree): from
there on the table index runs past the last entry and the unit slot reads
"undefined", as the counterexample proves at `1024^5`. -/
theorem formatBytes_unit_shape :
    formatBytes 0 2 = "0" ++ " " ++ "Bytes" ∧
    ∀ b : ℕ, 0 < b → b < 1024 ^ 5 - 3 →
      ∃ i u, u ∈ sizes ∧ 1024 ^ i ≤ b ∧ b < 1024 ^ (i + 1) ∧
        formatBytes b 2 = jsToFixed 2 ((b : ℚ) / 1024 ^ i) ++ " " ++ u := by
  refine ⟨by decide, fun b hb h5 => ?_⟩
  have hle := Nat.pow_log_le_self 1024 hb.ne'
  have hlt := Nat.lt_pow_succ_log_self (b := 1024) (by norm_num) b
  have hi : Nat.log 1024 b < 5 := by
    by_contra hge
    push_neg at hge
    exact absurd (le_trans (Nat.pow_le_pow_right (by norm_num) hge) hle) (by omega)
  exact ⟨Nat.log 1024 b, jsIndex sizes (Nat.log 1024 b), jsIndex_mem _ hi, hle, hlt,
    formatBytes_eq b 2 _ hle hlt⟩

/-- Witness for C2 at the concrete inputs 0 and 1024. -/
theorem formatBytes_unit_shape_witness :
    formatBytes 0 2 = "0" ++ " " ++ "Bytes" ∧
    (∃ i u, u ∈ sizes ∧ 1024 ^ i ≤ 1024 ∧ 1024 < 1024 ^ (i + 1) ∧
      formatBytes 1024 2 = jsToFixed 2 ((1024 : ℚ) / 1024 ^ i) ++ " " ++ u) :=
  ⟨formatBytes_unit_shape.1, formatBytes_unit_shape.2 1024 (by norm_num) (by norm_num)⟩

/-- Counterexample for C2 as stated: at `1024^5` bytes (1 pebibyte, where the
double and exact index computations agree on the value 5) the source indexes
a five-element table at 5, so the rendered unit is "undefined", which is not
one of Bytes/KB/MB/GB/TB. -/
theorem formatBytes_overflow_undefined :
    formatBytes (1024 ^ 5) 2 = "1.00 undefined" ∧ "undefined" ∉ sizes := by
  constructor
  · rw [formatBytes_eq (1024 ^ 5) 2 5 le_rfl (by norm_num),
      jsToFixed_eval 2 _ 100 (by positivity) (by norm_num) (by norm_num)]
    decide
  · decide

/-- C3: the four specified concrete values of `formatBytes`, including the
zero special case and the explicit-precision call `formatBytes(1536, 1)`. -/
theorem formatBytes_spec_values :
    formatBytes 0 2 = "0 Bytes" ∧
    formatBytes 1024 2 = "1.00 KB" ∧
    formatBytes 1536 1 = "1.5 KB" ∧
    formatBytes 1073741824 2 = "1.00 GB" := by
  refine ⟨by decide, ?_, ?_, ?_⟩
  · rw [formatBytes_eq 1024 2 1 (by norm_num) (by norm_num),
      jsToFixed_eval 2 _ 100 (by positivity) (by norm_num) (by norm_num)]
    decide
  · rw [formatBytes_eq 1536 1 1 (by norm_num) (by norm_num),
      jsToFixed_eval 1 _ 15 (by positivity) (by norm_num) (by norm_num)]
    decide
  · rw [formatBytes_eq 1073741824 2 3 (by norm_num) (by norm_num),
      jsToFixed_eval 2 _ 100 (by positivity) (by norm_num) (by norm_num)]
    decide

/-- C6: `formatTime` decomposes every non-negative whole number of seconds by
floor division into days, hours below 24, minutes below 60 and seconds below
60, always printing all four components; in particular 90061 seconds render
as "1d 1h 1m 1s" and 0 seconds as "0d 0h 0m 0s". -/
theorem formatTime_decomposition :
    (∀ s : ℕ, ∃ d h m sec : ℕ,
      s = d * (3600 * 24) + h * 3600 + m * 60 + sec ∧
      h < 24 ∧ m < 60 ∧ sec < 60 ∧
      formatTime s =
        toString d ++ "d " ++ toString h ++ "h " ++ toString m ++ "m " ++
          toString sec ++ "s") ∧
    formatTime 90061 = "1d 1h 1m 1s" ∧
    formatTime 0 = "0d 0h 0m 0s" := by
  refine ⟨fun s => ⟨s / (3600 * 24), s % (3600 * 24) / 3600, s % 3600 / 60, s % 60,
    ?_, ?_, ?_, ?_, rfl⟩, by decide, by decide⟩
  · omega
  · omega
  · omega
  · omega

/-- C7: on a successful call whose body carries all four fields,
`getGeolocation` joins city, region and country with comma-space separators
and passes the `loc` field through as the coordinates. -/
theorem getGeolocation_success_format (city region country loc : String) :
    getGeolocation (GeoOutcome.okBody
        { city := some city, region := some region, country := some country,
          loc := some loc }) =
      { location := city ++ ", " ++ region ++ ", " ++ country,
        coordinates := some loc } := rfl

/-- C1 (amended): for every failure that makes the awaited call throw — a
rejected promise (network error, non-2xx status, timeout) or a resolved
response whose body is not an object — `getGeolocation` returns exactly the
sentinel, and the `/api` response still has status 200 with the sentinel
values under its `geolocation` key; no error propagates.  (A 2xx object body
that merely lacks the city/region/country/loc fields is NOT such a failure:
see the counterexample.) -/
theorem getGeolocation_failure_sentinel (h : Host) (m : String) (o : GeoOutcome)
    (ho : o = GeoOutcome.reject ∨ o = GeoOutcome.nullBody) :
    getGeolocation o = geoSentinel ∧
    (handle h o m "/api").status = 200 ∧
    (handle h o m "/api").body = Body.json (apiData h geoSentinel) ∧
    jsonLookup (apiData h geoSentinel) "geolocation" =
      some (Json.obj [("location", Json.str "Location not found"),
                      ("coordinates", Json.str "Not available")]) := by
  have hg : getGeolocation o = geoSentinel := by
    rcases ho with ho | ho <;> rw [ho] <;> rfl
  have hroute : handle h o m "/api" =
      { status := 200
        contentType := "application/json"
        body := Body.json (apiData h (getGeolocation o)) } := by
    rw [handle, if_neg (by decide), if_pos rfl]
  refine ⟨hg, ?_, ?_, ?_⟩
  · rw [hroute]
  · rw [hroute, hg]
  · rfl

/-- Witness for C1 at the sample host, a rejected call and method GET. -/
theorem getGeolocation_failure_sentinel_witness :
    getGeolocation GeoOutcome.reject = geoSentinel ∧
    (handle sampleHost GeoOutcome.reject "GET" "/api").status = 200 ∧
    (handle sampleHost GeoOutcome.reject "GET" "/api").body =
      Body.json (apiData sampleHost geoSentinel) ∧
    jsonLookup (apiData sampleHost geoSentinel) "geolocation" =
      some (Json.obj [("location", Json.str "Location not found"),
                      ("coordinates", Json.str "Not available")]) :=
  getGeolocation_failure_sentinel sampleHost "GET" GeoOutcome.reject (Or.inl rfl)

/-- Counterexample for C1 as stated: a 2xx response whose object body lacks
all of city, region, country and loc does not yield the sentinel — the
template literal interpolates `undefined` three times and the coordinates
field is the undefined `loc`, not "Not available". -/
theorem getGeolocation_missing_fields_not_sentinel :
    getGeolocation (GeoOutcome.okBody
        { city := none, region := none, country := none, loc := none }) =
      { location := "undefined, undefined, undefined", coordinates := none } ∧
    getGeolocation (GeoOutcome.okBody
        { city := none, region := none, country := none, loc := none }) ≠
      geoSentinel := by
  constructor
  · rfl
  · decide

/-- C8: every request whose parsed pathname is neither "/" nor "/api",
whatever the method, receives status 404 with JSON content type and the body
object with single key "error" mapped to "Route not found". -/
theorem handle_unknown_route (h : Host) (g : GeoOutcome) (m p : String)
    (h1 : p ≠ "/") (h2 : p ≠ "/api") :
    (handle h g m p).status = 404 ∧
    (handle h g m p).contentType = "application/json" ∧
    (handle h g m p).body =
      Body.json (Json.obj [("error", Json.str "Route not found")]) := by
  rw [handle, if_neg h1, if_neg h2]
  exact ⟨rfl, rfl, rfl⟩

/-- Witness for C8 at the sample host, pathname "/nope" and method POST. -/
theorem handle_unknown_route_witness :
    (handle sampleHost GeoOutcome.reject "POST" "/nope").status = 404 ∧
    (handle sampleHost GeoOutcome.reject "POST" "/nope").contentType =
      "application/json" ∧
    (handle sampleHost GeoOutcome.reject "POST" "/nope").body =
      Body.json (Json.obj [("error", Json.str "Route not found")]) :=
  handle_unknown_route sampleHost GeoOutcome.reject "POST" "/nope"
    (by decide) (by decide)

/-- C9: every request to "/api", whatever the method and whatever the
geolocation outcome, receives status 200 with JSON content type, and the body
is a JSON object whose keys are exactly cpu, memory, os, user, process,
network and geolocation (in that order), the last bound to the rendered
`GeoResult`. -/
theorem handle_api_keys (h : Host) (g : GeoOutcome) (m : String) :
    (handle h g m "/api").status = 200 ∧
    (handle h g m "/api").contentType = "application/json" ∧
    ∃ fields,
      (handle h g m "/api").body = Body.json (Json.obj fields) ∧
      fields.map Prod.fst =
        ["cpu", "memory", "os", "user", "process", "network", "geolocation"] ∧
      List.lookup "geolocation" fields = some (geoJson (getGeolocation g)) := by
  have hroute : handle h g m "/api" =
      { status := 200
        contentType := "application/json"
        body := Body.json (apiData h (getGeolocation g)) } := by
    rw [handle, if_neg (by decide), if_pos rfl]
  refine ⟨by rw [hroute], by rw [hroute],
    snapshotFields h ++ [("geolocation", geoJson (getGeolocation g))], by rw [hroute]; rfl,
    rfl, rfl⟩

/-- C10: the `env.NODE_ENV` field of the process snapshot is the default
"Not set" for every falsy value of the environment variable — both when it is
absent and when it is set to the empty string. -/
theorem getProcessInfo_env_falsy_default (h : Host)
    (ho : h.nodeEnv = none ∨ h.nodeEnv = some "") :
    (getProcessInfo h).env.NODE_ENV = "Not set" := by
  rcases ho with ho | ho <;> simp [getProcessInfo, jsOrDefault, ho]

/-- Witness for C10 at a host whose NODE_ENV is the empty string (set but
falsy). -/
theorem getProcessInfo_env_falsy_default_witness :
    (getProcessInfo emptyEnvHost).env.NODE_ENV = "Not set" :=
  getProcessInfo_env_falsy_default emptyEnvHost (Or.inr rfl)

/-- Characterization of `Int.log 2` by a bracketing pair of powers. -/
theorem int_log_eq (q : ℚ) (e : ℤ) (hq : 0 < q)
    (h1 : (2 : ℚ) ^ e ≤ q) (h2 : q < 2 ^ (e + 1)) : Int.log 2 q = e := by
  have hb : 1 < 2 := by norm_num
  have hle : e ≤ Int.log 2 q := (Int.zpow_le_iff_le_log hb hq).mp h1
  have hlt : Int.log 2 q < e + 1 := (Int.lt_zpow_iff_log_lt hb hq).mp h2
  omega

/-- Evaluation of `rne` when the fractional part is below one half. -/
theorem rne_eval_lt (x : ℚ) (m : ℤ) (hm : ⌊x⌋ = m) (h : x - m < 1/2) : rne x = m := by
  rw [rne, hm, if_pos h]

/-- Evaluation of `rne` at an exact tie with an even floor. -/
theorem rne_eval_tie_even (x : ℚ) (m : ℤ) (hm : ⌊x⌋ = m) (h : x - m = 1/2)
    (he : m % 2 = 0) : rne x = m := by
  rw [rne, hm, if_neg (by linarith), if_neg (by linarith), if_pos he]

/-- `flRound` on a positive argument is `flRoundPos`. -/
theorem flRound_pos_eq (q : ℚ) (hq : 0 < q) : flRound q = flRoundPos q := by
  rw [flRound, if_neg hq.ne', if_neg (not_lt.mpr hq.le)]

/-- Evaluation of `flRound` at a positive rational once its binade and
rounded significand are known. -/
theorem flRoundPos_eval (q r : ℚ) (e n : ℤ) (hq : 0 < q)
    (h1 : (2 : ℚ) ^ e ≤ q) (h2 : q < 2 ^ (e + 1))
    (hn : rne (q / 2 ^ (e - 52)) = n)
    (hr : (n : ℚ) * 2 ^ (e - 52) = r) :
    flRound q = r := by
  rw [flRound_pos_eq q hq, flRoundPos, int_log_eq q e hq h1 h2, hn, hr]

/-- Zero is a fixed point of binary64 rounding. -/
theorem flRound_zero : flRound 0 = 0 := by rw [flRound, if_pos rfl]

/-- One is exactly representable, hence a fixed point of binary64 rounding. -/
theorem flRound_one : flRound 1 = 1 := by
  refine flRoundPos_eval 1 1 0 4503599627370496 (by norm_num) (by norm_num) (by norm_num)
    ?_ (by norm_num)
  rw [show (1 : ℚ) / 2 ^ ((0 : ℤ) - 52) = 4503599627370496 by norm_num]
  exact rne_eval_lt _ 4503599627370496 (by norm_num) (by norm_num)

/-- One hundred is exactly representable. -/
theorem flRound_hundred : flRound 100 = 100 := by
  refine flRoundPos_eval 100 100 6 7036874417766400 (by norm_num) (by norm_num)
    (by norm_num) ?_ (by norm_num)
  rw [show (100 : ℚ) / 2 ^ ((6 : ℤ) - 52) = 7036874417766400 by norm_num]
  exact rne_eval_lt _ 7036874417766400 (by norm_num) (by norm_num)

/-- `rne` of a non-negative rational is non-negative. -/
theorem rne_nonneg (x : ℚ) (hx : 0 ≤ x) : 0 ≤ rne x := by
  have h0 : 0 ≤ ⌊x⌋ := Int.floor_nonneg.mpr hx
  rw [rne]
  split_ifs <;> omega

/-- `rne` never passes an integer strictly above its argument. -/
theorem rne_le_of_lt (x : ℚ) (z : ℤ) (hx : x < z) : rne x ≤ z := by
  have h0 : ⌊x⌋ < z := Int.floor_lt.mpr hx
  rw [rne]
  split_ifs <;> omega

/-- Binary64 rounding preserves non-negativity. -/
theorem flRound_nonneg (q : ℚ) (hq : 0 ≤ q) : 0 ≤ flRound q := by
  rcases eq_or_lt_of_le hq with h | h
  · rw [← h, flRound_zero]
  · rw [flRound_pos_eq q h, flRoundPos]
    have hy : (0 : ℚ) ≤ q / 2 ^ (Int.log 2 q - 52) := by positivity
    have := rne_nonneg _ hy
    positivity

/-- Binary64 rounding never carries a value of `[0, 1]` above one: inside the
binade below one the rounded significand stays below `2^53`, and the only
boundary case is the exactly representable one itself. -/
theorem flRound_le_one (q : ℚ) (h0 : 0 ≤ q) (h1 : q ≤ 1) : flRound q ≤ 1 := by
  rcases eq_or_lt_of_le h0 with h | h
  · rw [← h, flRound_zero]; norm_num
  · have he1 : (2 : ℚ) ^ Int.log 2 q ≤ q := Int.zpow_log_le_self (by norm_num) h
    have he2 : q < 2 ^ (Int.log 2 q + 1) := Int.lt_zpow_succ_log_self (by norm_num) q
    have hee : Int.log 2 q ≤ 0 := by
      by_contra hc
      push_neg at hc
      have h2 : (2 : ℚ) ^ (1 : ℤ) ≤ 2 ^ Int.log 2 q :=
        zpow_le_zpow_right₀ (by norm_num) hc
      have : (2 : ℚ) ≤ q := le_trans (by norm_num at h2 ⊢; exact h2) he1
      linarith
    rcases eq_or_lt_of_le hee with he0 | hneg
    · have : q = 1 := le_antisymm h1 (by rw [he0] at he1; simpa using he1)
      rw [this, flRound_one]
    · rw [flRound_pos_eq q h, flRoundPos]
      have hu : (0 : ℚ) < 2 ^ (Int.log 2 q - 52) := by positivity
      have hy : q / 2 ^ (Int.log 2 q - 52) < 2 ^ (53 : ℤ) := by
        rw [div_lt_iff₀ hu, ← zpow_add₀ (two_ne_zero : (2 : ℚ) ≠ 0)]
        calc q < 2 ^ (Int.log 2 q + 1) := he2
          _ = 2 ^ (53 + (Int.log 2 q - 52)) := by ring_nf
      have hrle : rne (q / 2 ^ (Int.log 2 q - 52)) ≤ 2 ^ 53 := by
        refine rne_le_of_lt _ (2 ^ 53) ?_
        calc q / 2 ^ (Int.log 2 q - 52) < 2 ^ (53 : ℤ) := hy
          _ = ((2 ^ 53 : ℤ) : ℚ) := by norm_num
      calc (rne (q / 2 ^ (Int.log 2 q - 52)) : ℚ) * 2 ^ (Int.log 2 q - 52)
          ≤ (2 : ℚ) ^ (53 : ℤ) * 2 ^ (Int.log 2 q - 52) := by
            refine mul_le_mul_of_nonneg_right ?_ hu.le
            exact_mod_cast hrle
        _ = 2 ^ ((53 : ℤ) + (Int.log 2 q - 52)) := by
            rw [← zpow_add₀ (two_ne_zero : (2 : ℚ) ≠ 0)]
        _ = 2 ^ (Int.log 2 q + 1) := by ring_nf
        _ ≤ 2 ^ (0 : ℤ) := zpow_le_zpow_right₀ (by norm_num) (by omega)
        _ = 1 := by norm_num

/-- The usage pipeline on a host with no free memory collapses to the double
100, rendered "100.00". -/
theorem usage_pipeline_free_zero (t : ℕ) :
    jsToFixed 2 (dblMul (dblSub 1 (dblDiv ((0 : ℕ) : ℚ) ((t : ℕ) : ℚ))) 100) ++ "%" =
      "100.00%" := by
  rw [dblDiv, show ((0 : ℕ) : ℚ) / ((t : ℕ) : ℚ) = 0 by push_cast; exact zero_div _,
    flRound_zero, dblSub, show (1 : ℚ) - 0 = 1 by norm_num, flRound_one, dblMul,
    show (1 : ℚ) * 100 = 100 by norm_num, flRound_hundred,
    jsToFixed_eval 2 100 10000 (by norm_num) (by norm_num) (by norm_num)]
  decide

/-- One quarter is exactly representable (dyadic, 53 bits suffice). -/
theorem flRound_quarter : flRound (1/4) = 1/4 := by
  refine flRoundPos_eval (1/4) (1/4) (-2) 4503599627370496 (by norm_num) (by norm_num)
    (by norm_num) ?_ (by norm_num)
  rw [show (1 : ℚ) / 4 / 2 ^ ((-2 : ℤ) - 52) = 4503599627370496 by norm_num]
  exact rne_eval_lt _ 4503599627370496 (by norm_num) (by norm_num)

/-- Three quarters is exactly representable. -/
theorem flRound_three_quarters : flRound (3/4) = 3/4 := by
  refine flRoundPos_eval (3/4) (3/4) (-1) 6755399441055744 (by norm_num) (by norm_num)
    (by norm_num) ?_ (by norm_num)
  rw [show (3 : ℚ) / 4 / 2 ^ ((-1 : ℤ) - 52) = 6755399441055744 by norm_num]
  exact rne_eval_lt _ 6755399441055744 (by norm_num) (by norm_num)

/-- Seventy-five is exactly representable. -/
theorem flRound_seventyfive : flRound 75 = 75 := by
  refine flRoundPos_eval 75 75 6 5277655813324800 (by norm_num) (by norm_num)
    (by norm_num) ?_ (by norm_num)
  rw [show (75 : ℚ) / 2 ^ ((6 : ℤ) - 52) = 5277655813324800 by norm_num]
  exact rne_eval_lt _ 5277655813324800 (by norm_num) (by norm_num)

/-- Unfolding of the memory collector on a host built by `mkHost`. -/
theorem getMemoryInfo_mkHost (t f : ℕ) :
    getMemoryInfo (mkHost t f) =
      { total := formatBytes t 2
        free := formatBytes f 2
        usage :=
          jsToFixed 2 (dblMul (dblSub 1 (dblDiv (f : ℚ) (t : ℚ))) 100) ++ "%" } := rfl

/-- C4 (amended): the memory snapshot does not contain the host's total and
free byte counts as integers — it is a function of those two non-negative
integers alone, and carries them only as the human-readable strings produced
by the byte formatter, alongside the usage percentage.  The lossy-collision
counterexample shows the integers are not recoverable from the snapshot. -/
theorem getMemoryInfo_rendered_strings (h : Host) :
    (getMemoryInfo h).total = formatBytes h.totalmem 2 ∧
    (getMemoryInfo h).free = formatBytes h.freemem 2 ∧
    getMemoryInfo h = getMemoryInfo (mkHost h.totalmem h.freemem) :=
  ⟨rfl, rfl, rfl⟩

/-- Counterexample for C4 as stated: two hosts whose total memory differs by
one byte produce identical snapshots, so the snapshot cannot contain the total
byte count as an integer — the only trace of it is the rounded string
"1.00 MB". -/
theorem getMemoryInfo_lossy_collision :
    getMemoryInfo (mkHost 1048576 0) = getMemoryInfo (mkHost 1048577 0) ∧
    (mkHost 1048576 0).totalmem ≠ (mkHost 1048577 0).totalmem ∧
    (getMemoryInfo (mkHost 1048576 0)).total = "1.00 MB" := by
  have hA : formatBytes 1048576 2 = "1.00 MB" := by
    rw [formatBytes_eq 1048576 2 2 (by norm_num) (by norm_num),
      jsToFixed_eval 2 _ 100 (by positivity) (by norm_num) (by norm_num)]
    decide
  have hB : formatBytes 1048577 2 = "1.00 MB" := by
    rw [formatBytes_eq 1048577 2 2 (by norm_num) (by norm_num),
      jsToFixed_eval 2 _ 100 (by positivity) (by norm_num) (by norm_num)]
    decide
  refine ⟨?_, by decide, ?_⟩
  · rw [getMemoryInfo_mkHost, getMemoryInfo_mkHost, hA, hB,
      usage_pipeline_free_zero 1048576, usage_pipeline_free_zero 1048577]
  · rw [getMemoryInfo_mkHost, hA]

/-- The double division step of the usage pipeline at the drift host:
63/160 is not dyadic and rounds down. -/
theorem flRound_drift_div :
    flRound ((63 : ℚ) / 160) = 7093169413108531 / 18014398509481984 := by
  refine flRoundPos_eval _ _ (-2) 7093169413108531 (by norm_num) (by norm_num)
    (by norm_num) ?_ (by norm_num)
  rw [show (63 : ℚ) / 160 / 2 ^ ((-2 : ℤ) - 52) = 35465847065542656 / 5 by norm_num]
  exact rne_eval_lt _ 7093169413108531 (by norm_num) (by norm_num)

/-- The double subtraction step at the drift host: an exact tie, resolved to
the even significand, which rounds the value below the exact 0.60625. -/
theorem flRound_drift_sub :
    flRound ((10921229096373453 : ℚ) / 18014398509481984) =
      5460614548186726 / 9007199254740992 := by
  refine flRoundPos_eval _ _ (-1) 5460614548186726 (by norm_num) (by norm_num)
    (by norm_num) ?_ (by norm_num)
  rw [show (10921229096373453 : ℚ) / 18014398509481984 / 2 ^ ((-1 : ℤ) - 52) =
    10921229096373453 / 2 by norm_num]
  exact rne_eval_tie_even _ 5460614548186726 (by norm_num) (by norm_num) (by norm_num)

/-- The double multiplication step at the drift host. -/
theorem flRound_drift_mul :
    flRound ((5460614548186726 : ℚ) / 9007199254740992 * 100) =
      8532210231541759 / 140737488355328 := by
  refine flRoundPos_eval _ _ 5 8532210231541759 (by norm_num) (by norm_num)
    (by norm_num) ?_ (by norm_num)
  rw [show (5460614548186726 : ℚ) / 9007199254740992 * 100 / 2 ^ ((5 : ℤ) - 52) =
    68257681852334075 / 8 by norm_num]
  exact rne_eval_lt _ 8532210231541759 (by norm_num) (by norm_num)

/-- C5 (amended): for every host state with positive total, free not
exceeding total, and both counts below `2^53` (so the host-reported doubles
are exact), the usage field is the binary64 evaluation of
`(1 - free/total) * 100` — division, subtraction and multiplication each
correctly rounded — rendered by `toFixed(2)` and a percent sign: an integer
part, a dot and exactly two digits whose combined value is the half-up
rounding of the final double; in particular total 1000 and free 250 render
as "75.00%".  The double result can differ in the hundredths digit from the
exact rational percentage: see the drift counterexample. -/
theorem getMemoryInfo_usage_percent (h : Host)
    (hT : 0 < h.totalmem) (hF : h.freemem ≤ h.totalmem)
    (hT53 : h.totalmem < 2 ^ 53) (hF53 : h.freemem < 2 ^ 53) :
    (getMemoryInfo h).usage =
      jsToFixed 2 (dblMul (dblSub 1 (dblDiv (h.freemem : ℚ) (h.totalmem : ℚ))) 100)
        ++ "%" ∧
    (∃ a b : ℕ, b < 100 ∧
      (getMemoryInfo h).usage =
        toString a ++ "." ++ padLeftZeros (toString b) 2 ++ "%" ∧
      (a * 100 + b : ℤ) =
        ⌊dblMul (dblSub 1 (dblDiv (h.freemem : ℚ) (h.totalmem : ℚ))) 100 * 100 + 1/2⌋) ∧
    (getMemoryInfo (mkHost 1000 250)).usage = "75.00%" := by
  have hT' : (0 : ℚ) < (h.totalmem : ℚ) := by exact_mod_cast hT
  have hdiv0 : (0 : ℚ) ≤ (h.freemem : ℚ) / (h.totalmem : ℚ) := by positivity
  have hdiv1 : (h.freemem : ℚ) / (h.totalmem : ℚ) ≤ 1 :=
    div_le_one_of_le₀ (by exact_mod_cast hF) (le_of_lt hT')
  have hd1a : 0 ≤ dblDiv (h.freemem : ℚ) (h.totalmem : ℚ) := flRound_nonneg _ hdiv0
  have hd1b : dblDiv (h.freemem : ℚ) (h.totalmem : ℚ) ≤ 1 :=
    flRound_le_one _ hdiv0 hdiv1
  have hd2 : 0 ≤ dblSub 1 (dblDiv (h.freemem : ℚ) (h.totalmem : ℚ)) :=
    flRound_nonneg _ (by rw [sub_nonneg]; exact hd1b)
  have hd3 : 0 ≤ dblMul (dblSub 1 (dblDiv (h.freemem : ℚ) (h.totalmem : ℚ))) 100 :=
    flRound_nonneg _ (by positivity)
  obtain ⟨a, b, hb, heq, hfl⟩ := jsToFixed_shape 2 _ hd3 (by norm_num)
  refine ⟨rfl, ⟨a, b, by norm_num at hb; exact hb, ?_, ?_⟩, ?_⟩
  · show
      jsToFixed 2 (dblMul (dblSub 1 (dblDiv (h.freemem : ℚ) (h.totalmem : ℚ))) 100)
        ++ "%" = toString a ++ "." ++ padLeftZeros (toString b) 2 ++ "%"
    rw [heq]
  · calc (a * 100 + b : ℤ) = (a * 10 ^ 2 + b : ℤ) := by norm_num
      _ = ⌊dblMul (dblSub 1 (dblDiv (h.freemem : ℚ) (h.totalmem : ℚ))) 100 * 10 ^ 2
            + 1/2⌋ := hfl
      _ = ⌊dblMul (dblSub 1 (dblDiv (h.freemem : ℚ) (h.totalmem : ℚ))) 100 * 100
            + 1/2⌋ := by norm_num
  · show
      jsToFixed 2 (dblMul (dblSub 1 (dblDiv ((250 : ℕ) : ℚ) ((1000 : ℕ) : ℚ))) 100)
        ++ "%" = "75.00%"
    rw [dblDiv, show ((250 : ℕ) : ℚ) / ((1000 : ℕ) : ℚ) = 1 / 4 by norm_num,
      flRound_quarter, dblSub, show (1 : ℚ) - 1 / 4 = 3 / 4 by norm_num,
      flRound_three_quarters, dblMul, show (3 : ℚ) / 4 * 100 = 75 by norm_num,
      flRound_seventyfive,
      jsToFixed_eval 2 75 7500 (by norm_num) (by norm_num) (by norm_num)]
    decide

/-- Witness for C5 at total 1000 bytes and free 250 bytes. -/
theorem getMemoryInfo_usage_percent_witness :
    (getMemoryInfo (mkHost 1000 250)).usage = "75.00%" :=
  (getMemoryInfo_usage_percent (mkHost 1000 250)
    (by decide) (by decide) (by decide) (by decide)).2.2

/-- Counterexample for C5 as stated: at total 171798691840 (160 GiB) and free
67645734912 (63 GiB) bytes the exact percentage is 60.625, which renders with
two decimal places as "60.63%", but the double pipeline — 63/160 rounds down
in the division, the subtraction hits an exact tie resolved to even — yields
60.624999999999992895..., so the program prints "60.62%". -/
theorem getMemoryInfo_usage_float_drift :
    (getMemoryInfo (mkHost 171798691840 67645734912)).usage = "60.62%" ∧
    specUsageExact 171798691840 67645734912 = "60.63%" ∧
    (getMemoryInfo (mkHost 171798691840 67645734912)).usage ≠
      specUsageExact 171798691840 67645734912 := by
  have hud : (getMemoryInfo (mkHost 171798691840 67645734912)).usage = "60.62%" := by
    show
      jsToFixed 2 (dblMul (dblSub 1
        (dblDiv ((67645734912 : ℕ) : ℚ) ((171798691840 : ℕ) : ℚ))) 100) ++ "%" =
        "60.62%"
    rw [dblDiv,
      show ((67645734912 : ℕ) : ℚ) / ((171798691840 : ℕ) : ℚ) = 63 / 160 by norm_num,
      flRound_drift_div, dblSub,
      show (1 : ℚ) - 7093169413108531 / 18014398509481984 =
        10921229096373453 / 18014398509481984 by norm_num,
      flRound_drift_sub, dblMul, flRound_drift_mul,
      jsToFixed_eval 2 _ 6062 (by norm_num) (by norm_num) (by norm_num)]
    decide
  have hex : specUsageExact 171798691840 67645734912 = "60.63%" := by
    rw [specUsageExact,
      show (1 - ((67645734912 : ℕ) : ℚ) / ((171798691840 : ℕ) : ℚ)) * 100 = 485 / 8 by
        norm_num,
      jsToFixed_eval 2 _ 6063 (by norm_num) (by norm_num) (by norm_num)]
    decide
  refine ⟨hud, hex, ?_⟩
  rw [hud, hex]
  decide
